import Mathlib

/-!
Verification development for the ADDMS backend (delivery dispatch and route
planning core). Python floats are modelled exactly as rationals (`ℚ`);
transcendental float computations (haversine, square roots, trigonometry)
are either modelled over `ℝ` or abstracted as function parameters, as noted
at each definition. Database rows become explicit records, and Django ORM
side effects become explicit state passing.
-/

namespace ADDMS

/-! ## Rounding helpers

Python's builtin `round(x, n)` rounds half to even (banker's rounding).
We model it exactly on rationals; the binary-float representation error of
CPython is out of scope of this embedding. -/

/-- Round a rational to the nearest integer, ties to even (Python `round`). -/
def roundHalfEven (x : ℚ) : ℤ :=
  let f : ℤ := ⌊x⌋
  let r : ℚ := x - f
  if r < 1/2 then f
  else if r > 1/2 then f + 1
  else if f % 2 = 0 then f else f + 1

/-- Python `round(x, n)` on exact rational values. -/
def pyRound (x : ℚ) (n : ℕ) : ℚ :=
  ((roundHalfEven (x * 10 ^ n) : ℤ) : ℚ) / 10 ^ n

/-- Python builtin `min(a, b)` (returns `a` on ties), written with an
explicit comparison so that concrete values kernel-evaluate. -/
def pymin (a b : ℚ) : ℚ := if b < a then b else a

/-- Python builtin `max(a, b)` (returns `a` on ties). -/
def pymax (a b : ℚ) : ℚ := if b > a then b else a

/-- Python `min(iterable, default=d)` over a list of rationals. -/
def pyListMin (l : List ℚ) (d : ℚ) : ℚ :=
  match l with
  | [] => d
  | x :: xs => xs.foldl pymin x

/-! ## ETA predictor (`apps/routes/ai/eta_predictor.py`)

The `start_time` and `eta_datetime` fields are modelled as rational
timestamps (minutes); `timedelta(minutes=m)` becomes addition of `m`. -/

/-- Structured ETA prediction result (dataclass `ETAPrediction`).
The `feature_importance` field (only populated by the ML branch from
sklearn internals) is omitted. -/
structure ETAPrediction where
  eta_minutes : ℚ
  eta_datetime : ℚ
  confidence : ℚ
  uncertainty_lo : ℚ
  uncertainty_hi : ℚ
  base_speed_kmh : ℚ
  effective_speed_kmh : ℚ
  speed_reduction_percent : ℚ
  payload_impact : ℚ
  altitude_impact : ℚ
  battery_impact : ℚ
  weather_impact : ℚ
  traffic_impact : ℚ
  historical_adjustment : ℚ
  model_used : String
  similar_routes_count : ℕ
deriving Repr, DecidableEq

/-- Embedding of `ETAPredictor._predict_rule_based` (eta_predictor.py:435-479). -/
def predict_rule_based (distance_km altitude_avg payload_weight_kg : ℚ)
    (battery_level : ℤ) (wind_speed_kmh precipitation air_traffic_density : ℚ)
    (drone_max_speed start_time : ℚ) : ETAPrediction :=
  let base_speed := drone_max_speed * 0.8
  let payload_penalty := 1 - pymin 0.3 ((payload_weight_kg / 10) * 0.1)
  let altitude_penalty := 1 - pymin 0.2 ((altitude_avg / 1000) * 0.05)
  let battery_penalty : ℚ :=
    if battery_level > 50 then 1 else pymax 0.7 ((battery_level : ℚ) / 50)
  let wind_penalty := 1 - pymin 0.25 ((wind_speed_kmh / 50) * 0.15)
  let precip_penalty := 1 - pymin 0.3 (precipitation * 0.2)
  let traffic_penalty := 1 - pymin 0.15 (air_traffic_density * 0.1)
  let effective_speed := base_speed * payload_penalty * altitude_penalty *
    battery_penalty * wind_penalty * precip_penalty * traffic_penalty
  let eta_minutes := (distance_km / effective_speed) * 60 * 1.2
  { eta_minutes := pyRound eta_minutes 2
    eta_datetime := start_time + eta_minutes
    confidence := 75
    uncertainty_lo := eta_minutes * 0.85
    uncertainty_hi := eta_minutes * 1.25
    base_speed_kmh := pyRound base_speed 2
    effective_speed_kmh := pyRound effective_speed 2
    speed_reduction_percent := pyRound (((base_speed - effective_speed) / base_speed) * 100) 2
    payload_impact := pyRound ((1 - payload_penalty) * 100) 2
    altitude_impact := pyRound ((1 - altitude_penalty) * 100) 2
    battery_impact := pyRound ((1 - battery_penalty) * 100) 2
    weather_impact := pyRound ((1 - wind_penalty - precip_penalty + 1) * 100) 2
    traffic_impact := pyRound ((1 - traffic_penalty) * 100) 2
    historical_adjustment := 0
    model_used := "rule_based"
    similar_routes_count := 0 }

/-- Route hash for the historical cache (`ETAPredictor._get_route_hash`).
The Python key is the string `f"{d}_{a}_{w}"`; the formatted string is
determined exactly by the rounded triple, so we key on the triple itself. -/
def get_route_hash (distance_km altitude_avg weather_factor : ℚ) : ℚ × ℚ × ℚ :=
  (pyRound distance_km 1, pyRound altitude_avg 0, pyRound weather_factor 2)

/-- Historical route cache `route_hash -> [durations]` as an association list. -/
abbrev RouteHashCache := List ((ℚ × ℚ × ℚ) × List ℚ)

/-- Lookup in the historical cache (Python dict membership + access). -/
def cacheLookup (c : RouteHashCache) (k : ℚ × ℚ × ℚ) : Option (List ℚ) :=
  (c.find? (fun p => decide (p.1 = k))).map (·.2)

/-- Arithmetic mean (np.mean) of a list of rationals. -/
def listMean (l : List ℚ) : ℚ := l.sum / (l.length : ℚ)

/-- Embedding of `ETAPredictor._apply_historical_adjustment`
(eta_predictor.py:481-517). -/
def apply_historical_adjustment (cache : RouteHashCache) (p : ETAPrediction)
    (distance_km altitude_avg wind_speed_kmh : ℚ) : ETAPrediction :=
  let h := get_route_hash distance_km altitude_avg (wind_speed_kmh / 50)
  match cacheLookup cache h with
  | some l =>
    if 3 ≤ l.length then
      let historical_avg := listMean l
      let blend_weight := pymin 0.3 ((l.length : ℚ) / 20)
      let adjusted_eta := p.eta_minutes * (1 - blend_weight) + historical_avg * blend_weight
      let adjustment := adjusted_eta - p.eta_minutes
      let p' := { p with
        eta_minutes := pyRound adjusted_eta 2
        eta_datetime := p.eta_datetime + adjustment
        historical_adjustment := pyRound adjustment 2
        similar_routes_count := l.length }
      if |adjustment| / p'.eta_minutes < 0.1 then
        { p' with confidence := pymin 98 (p'.confidence + 10) }
      else p'
    else p
  | none => p

/-- Embedding of `ETAPredictor.predict_eta` (eta_predictor.py:292-368).
The sklearn random-forest branch `_predict_ml` (only taken when
`is_trained` is true) is abstracted by the `mlPrediction` parameter; the
parameters consumed only by that branch (temperature, visibility, air
pressure, variance, complexity, wind direction, drone age, time of day,
day of week) are omitted since they do not affect the modelled branches. -/
def predict_eta (is_trained : Bool) (mlPrediction : ETAPrediction)
    (route_cache : RouteHashCache)
    (distance_km : ℚ) (altitude_avg : ℚ := 100) (payload_weight_kg : ℚ := 2)
    (battery_level : ℤ := 100) (wind_speed_kmh : ℚ := 10) (precipitation : ℚ := 0)
    (air_traffic_density : ℚ := 0.3) (drone_max_speed : ℚ := 60)
    (start_time : ℚ := 0) : ETAPrediction :=
  let prediction :=
    if is_trained then mlPrediction
    else predict_rule_based distance_km altitude_avg payload_weight_kg
      battery_level wind_speed_kmh precipitation air_traffic_density
      drone_max_speed start_time
  apply_historical_adjustment route_cache prediction distance_km altitude_avg wind_speed_kmh

/-! ## Delivery orders (`apps/deliveries/models.py`, `views.py`, `tasks.py`)

Timestamps are rational; `timezone.now()` becomes an explicit `now`
argument. Django model rows become records; `save()` becomes returning the
updated record. -/

/-- `DeliveryOrder.Status.choices` values (models.py:16-23). -/
def statusChoices : List String :=
  ["pending", "assigned", "in_transit", "delivering", "delivered", "failed", "cancelled"]

/-- Delivery order state: the fields read or written by the modelled
operations (`DeliveryOrder`, deliveries/models.py). -/
structure Order where
  status : String
  droneId : Option ℕ
  assigned_at : Option ℚ
  picked_up_at : Option ℚ
  delivered_at : Option ℚ
  actual_delivery_time : Option ℚ
deriving Repr, DecidableEq

/-- One `OrderStatusHistory` row (deliveries/models.py:132-154). -/
structure HistoryRow where
  status : String
  notes : Option String
  changed_by : Option ℕ
deriving Repr, DecidableEq

/-- Result of the `update_status` view action. -/
inductive UpdateStatusResult
  | badRequest (msg : String)
  | ok (order : Order) (newRows : List HistoryRow)
deriving Repr, DecidableEq

/-- Embedding of `DeliveryOrderViewSet.update_status` (deliveries/views.py:91-134).
The view checks only membership of the requested status in the status
choices; it performs no transition validation. On success it saves the
order and appends exactly one history row. -/
def update_status (order : Order) (new_status : String) (userId : ℕ)
    (notes : Option String) (now : ℚ) : UpdateStatusResult :=
  if new_status ∉ statusChoices then .badRequest "Invalid status"
  else
    let o := { order with status := new_status }
    let o :=
      if new_status = "assigned" ∧ order.assigned_at = none then
        { o with assigned_at := some now }
      else if new_status = "in_transit" ∧ order.picked_up_at = none then
        { o with picked_up_at := some now }
      else if new_status = "delivered" then
        { o with delivered_at := some now, actual_delivery_time := some now }
      else o
    .ok o [⟨new_status, notes, some userId⟩]

/-- Drone state: the fields read or written by the modelled operations
(`Drone`, drones/models.py). `Drone.Status` choices are idle, charging,
assigned, delivering, returning, maintenance, offline — there is no
`IN_FLIGHT` member (models.py:16-23). -/
structure Drone where
  id : ℕ
  serial_number : String
  status : String
  battery_level : ℤ
  is_active : Bool
  current_position : Option (ℚ × ℚ)
  current_altitude : ℚ
  last_heartbeat : Option ℚ
deriving Repr, DecidableEq

/-- World state threaded through the drone-assignment task: the one order
and drone involved plus the order's history rows. -/
structure AssignWorld where
  order : Order
  drone : Drone
  history : List HistoryRow
deriving Repr, DecidableEq

/-- Embedding of the Celery task `assign_drone_to_delivery`
(deliveries/tasks.py:11-78). The task performs no idempotence or
precondition check: it unconditionally sets the drone, status and
timestamps, marks the drone delivering, and appends one history row.
`order.picked_up_at or timezone.now()` keeps an existing timestamp.
The enqueued follow-up tasks (route optimization, notification) are
external side effects not modelled here. -/
def assign_drone_to_delivery (w : AssignWorld) (now : ℚ) : AssignWorld :=
  let order := { w.order with
    droneId := some w.drone.id
    status := "in_transit"
    assigned_at := some now
    picked_up_at := match w.order.picked_up_at with
      | some t => some t
      | none => some now }
  let drone := { w.drone with status := "delivering" }
  { order := order
    drone := drone
    history := w.history ++
      [⟨"in_transit", some ("Drone " ++ w.drone.serial_number ++ " dispatched"), none⟩] }

/-- HTTP-level outcome of the `assign_drone` view action. -/
inductive AssignViewResponse
  | forbidden
  | badRequest (msg : String)
  | notFound (msg : String)
  | accepted
deriving Repr, DecidableEq

/-- Embedding of `DeliveryOrderViewSet.assign_drone` (deliveries/views.py:51-89).
The only drone validation performed is the lookup
`Drone.objects.get(id=drone_id, is_active=True)`; the drone's status and
battery level are not checked. On success the view enqueues
`assign_drone_to_delivery` with the found drone and returns 200. -/
def assign_drone_view (isAdminOrManager : Bool) (drone_id : Option ℕ)
    (drones : List Drone) : AssignViewResponse × Option Drone :=
  if ¬ isAdminOrManager then (.forbidden, none)
  else
    match drone_id with
    | none => (.badRequest "drone_id is required", none)
    | some did =>
      match drones.find? (fun d => decide (d.id = did) && d.is_active) with
      | none => (.notFound "Drone not found or inactive", none)
      | some d => (.accepted, some d)

/-- Combined flow: the `assign_drone` view followed by the enqueued
`assign_drone_to_delivery` task when the view accepted. Returns the view
response and the world after the task (unchanged when rejected). -/
def assign_drone_flow (isAdminOrManager : Bool) (drone_id : Option ℕ)
    (order : Order) (drones : List Drone) (history : List HistoryRow)
    (now : ℚ) : AssignViewResponse × Option AssignWorld :=
  match assign_drone_view isAdminOrManager drone_id drones with
  | (.accepted, some d) =>
    (.accepted, some (assign_drone_to_delivery ⟨order, d, history⟩ now))
  | (resp, _) => (resp, none)

/-! ## Telemetry ingest (`apps/telemetry/tasks.py`) -/

/-- Incoming telemetry payload (`telemetry_data` dict). Absent keys are
`none`. -/
structure TelemetryPayload where
  latitude : Option ℚ := none
  longitude : Option ℚ := none
  altitude : Option ℚ := none
  speed : Option ℚ := none
  heading : Option ℚ := none
  battery_level : Option ℤ := none
  is_in_flight : Option Bool := none
  connection_quality : Option ℤ := none
deriving Repr, DecidableEq

/-- One `TelemetryData` row as created by the ingest task (tasks.py:40-53).
`position` is non-nullable (`TelemetryData.position` is a `PointField`
without `null=True`, telemetry/models.py:26-30), so a row only exists
when a non-null position was available at insert time. -/
structure TelemetryRow where
  position : ℚ × ℚ
  altitude : ℚ
  heading : ℚ
  speed : ℚ
  battery_level : ℤ
  is_in_flight : Bool
deriving Repr, DecidableEq

/-- Python truthiness of an optional float (`if lat and lng`): `None` and
`0.0` are falsy. -/
def qTruthy : Option ℚ → Bool
  | none => false
  | some x => decide (x ≠ 0)

/-- Position extraction (telemetry/tasks.py:30-37): when both coordinates
are truthy the payload position is used, otherwise the drone's stored
position. Stored points are `(lng, lat)` following `Point(lng, lat)`. -/
def posFromPayload (lat lng : Option ℚ) (fallback : Option (ℚ × ℚ)) : Option (ℚ × ℚ) :=
  if qTruthy lat && qTruthy lng then
    match lat, lng with
    | some la, some lo => some (lo, la)
    | _, _ => fallback
  else fallback

/-- Outcome of one run of the telemetry ingest task. `telemetryRow` is the
row inserted at tasks.py:40 (`none` when the insert itself raised, `some`
when it succeeded — a successful insert persists even if a later line
fails); `drone` is the persisted drone row (updated only if
`drone.save()` on line 61 is reached). -/
structure IngestResult where
  telemetryRow : Option TelemetryRow
  drone : Drone
  streamUpdated : Bool
  errored : Option String
deriving Repr, DecidableEq

/-- Embedding of `process_live_telemetry` (telemetry/tasks.py:17-148).
Two error paths. (1) When both payload coordinates are absent or falsy
AND the drone has no stored `current_position`, the resolved `position`
is `None`; `TelemetryData.position` is non-nullable
(telemetry/models.py:26-30), so `TelemetryData.objects.create` on line
40 raises `IntegrityError` — no telemetry row, no drone update. (2)
Otherwise the row is inserted; line 60 then evaluates
`Drone.Status.IN_FLIGHT if telemetry_data.get('is_in_flight', True) else drone.status`.
`Drone.Status` has no member `IN_FLIGHT` (drones/models.py:16-23), so
whenever the condition is truthy (explicit true or key absent, since the
default is `True`) Python raises `AttributeError` before `drone.save()`
on line 61: the drone row is not updated at all. When the flag is falsy
the conditional short-circuits, the attribute is never evaluated, and the
update completes with the status unchanged. -/
def process_live_telemetry (d : Drone) (p : TelemetryPayload) (now : ℚ) : IngestResult :=
  match posFromPayload p.latitude p.longitude d.current_position with
  | none =>
    { telemetryRow := none
      drone := d
      streamUpdated := false
      errored := some "IntegrityError: null value in column position violates not-null constraint" }
  | some pos =>
    let row : TelemetryRow :=
      { position := pos
        altitude := p.altitude.getD 0
        heading := p.heading.getD 0
        speed := p.speed.getD 0
        battery_level := p.battery_level.getD d.battery_level
        is_in_flight := p.is_in_flight.getD true }
    if p.is_in_flight.getD true then
      { telemetryRow := some row
        drone := d
        streamUpdated := false
        errored := some "AttributeError: type object Status has no attribute IN_FLIGHT" }
    else
      { telemetryRow := some row
        drone := { d with
          current_position := some pos
          current_altitude := p.altitude.getD 0
          battery_level := p.battery_level.getD d.battery_level
          last_heartbeat := some now }
        streamUpdated := true
        errored := none }

/-! ## Static zone catalog (`apps/zones/static_zones.py`) -/

/-- One entry of the compile-time `STATIC_ZONES` catalog. -/
structure StaticZone where
  name : String
  severity : String
  center_lat : ℚ
  center_lng : ℚ
  radius_m : ℚ
  altitude_min : ℚ
  altitude_max : ℚ
  reason : String
deriving Repr, DecidableEq

/-- The built-in catalog (static_zones.py:18-46). -/
def STATIC_ZONES : List StaticZone :=
  [⟨"Red Zone - Airport", "red", 12.9716, 77.5946, 1500, 0, 1200, "Airport critical airspace"⟩,
   ⟨"Yellow Zone - Hospital Corridor", "yellow", 12.985, 77.61, 800, 0, 400, "Hospital helipad corridor"⟩,
   ⟨"Red Zone - Sensitive Facility", "red", 13.01, 77.58, 1000, 0, 800, "Government / sensitive facility"⟩]

/-- Names imported into the module namespace of static_zones.py: line 8
imports `json`, line 9 is
`from math import sin, radians, degrees, asin, atan2, pi`,
line 11 imports `Polygon`. The name `cos` is NOT among them although the
loop body at line 58 uses it. -/
def static_zones_imported_names : List String :=
  ["json", "sin", "radians", "degrees", "asin", "atan2", "pi", "Polygon"]

/-- Embedding of `_circle_to_polygon` (static_zones.py:49-67). The first
loop iteration evaluates `sin(lat_r) * cos(angular_distance)` (line 58);
the name `cos` is unbound, so Python raises `NameError` whenever
`num_points ≥ 1`. The geodesic polygon the function would compute is
unreachable, so only the name-resolution outcome is modelled. -/
def circle_to_polygon (lat lng radius_m : ℚ) (num_points : ℕ := 64) : Except String Unit :=
  if num_points = 0 then .ok ()
  else if "cos" ∈ static_zones_imported_names then .ok ()
  else .error "NameError: name cos is not defined"

/-- Loop of `load_static_zones` over the catalog: each iteration first
calls `_circle_to_polygon` (static_zones.py:78); an exception propagates
out of the whole call. The bbox intersection filter (line 80) would run
only after a successful polygon construction. -/
def load_static_zones_go : List StaticZone → Except String (List StaticZone)
  | [] => .ok []
  | z :: zs =>
    match circle_to_polygon z.center_lat z.center_lng z.radius_m with
    | .error e => .error e
    | .ok _ => (load_static_zones_go zs).map (fun r => z :: r)

/-- Embedding of `load_static_zones` (static_zones.py:70-93). The bbox
argument is kept for signature fidelity; it is only consulted after the
polygon construction, which always raises. -/
def load_static_zones (bbox : Option (ℚ × ℚ × ℚ × ℚ) := none) :
    Except String (List StaticZone) :=
  let _ := bbox
  load_static_zones_go STATIC_ZONES

/-! ## Route optimizer (`apps/routes/ai/route_optimizer.py`)

Search nodes are `(lat, lng, alt)` triples of rationals. The numeric
haversine / 3D-distance float computations are abstracted as function
parameters (`hav`, `dist3q`); the search structure, obstacle tests,
neighbour generation, goal test, smoothing, terrain following and cache
are modelled exactly. GEOS geometry values are abstracted by a type `G`
together with the operations the optimizer invokes on them (`GeomOps`);
a concrete axis-aligned-rectangle instantiation is given further below. -/

/-- Search node `(lat, lng, alt)`. -/
abbrev Node := ℚ × ℚ × ℚ

/-- Query point with `x` = longitude, `y` = latitude (GEOS `Point`). -/
structure P2 where
  x : ℚ
  y : ℚ
deriving Repr, DecidableEq

/-- Configuration constant `grid_resolution` (route_optimizer.py:75). -/
def grid_resolution : ℚ := 0.001

/-- Configuration constant `altitude_step` (route_optimizer.py:76). -/
def altitude_step : ℚ := 20

/-- Configuration constant `max_altitude` (route_optimizer.py:77). -/
def max_altitude : ℚ := 400

/-- Configuration constant `min_altitude` (route_optimizer.py:78). -/
def min_altitude : ℚ := 50

/-- Configuration constant `min_terrain_clearance` (route_optimizer.py:79). -/
def min_terrain_clearance : ℚ := 30

/-- Configuration constant `safety_buffer` in metres (route_optimizer.py:80). -/
def safety_buffer : ℚ := 100

/-- Iteration cap `max_iterations` of the A* loop (route_optimizer.py:290). -/
def max_iterations : ℕ := 10000

/-- Operations the optimizer performs on GEOS geometries, abstracted over
the geometry representation `G`. `containsPt g x y` models
`g.contains(Point(x, y))` (interior containment), `intersectsPt` models
`g.intersects(Point(x, y))`, `intersectsGeom` models `a.intersects(b)`
(used for the `boundary__intersects=bbox` ORM filter), `intersectsLine`
models intersection with the 2-point segment from `p` to `q`, `centroid`
returns `(x, y)`, and `rectPolygon min_lng min_lat max_lng max_lat`
models the axis-aligned `Polygon` literal built by `_create_bbox`. -/
structure GeomOps (G : Type) where
  buffer : G → ℚ → G
  containsPt : G → ℚ → ℚ → Bool
  intersectsPt : G → ℚ → ℚ → Bool
  intersectsGeom : G → G → Bool
  intersectsLine : G → (ℚ × ℚ) → (ℚ × ℚ) → Bool
  centroid : G → ℚ × ℚ
  rectPolygon : ℚ → ℚ → ℚ → ℚ → G

/-- One obstacle dict as built by `_get_obstacles` (route_optimizer.py:384-416). -/
structure Obstacle (G : Type) where
  otype : String
  geometry : G
  name : String
  altitude_min : Option ℚ
  altitude_max : Option ℚ
deriving DecidableEq

/-- Active `NoFlyZone` row fields consulted by the optimizer
(zones/models.py:48-106). `valid_from` / `valid_until` are carried but
never filtered on by `_get_obstacles`, which checks only `is_active`. -/
structure NoFlyZoneRec (G : Type) where
  id : ℕ
  name : String
  boundary : G
  is_active : Bool
  severity : String
  altitude_min : ℚ
  altitude_max : Option ℚ
  valid_from : Option ℚ := none
  valid_until : Option ℚ := none
deriving DecidableEq

/-- Embedding of `RouteOptimizer._is_in_obstacle` (route_optimizer.py:559-582).
A node is rejected when some obstacle whose altitude band admits the
node's altitude contains or intersects the node's 2D point after the
geometry is buffered by `safety_buffer / 111000` degrees. -/
def is_in_obstacle {G : Type} (ops : GeomOps G) (node : Node)
    (obstacles : List (Obstacle G)) : Bool :=
  let lat := node.1
  let lng := node.2.1
  let alt := node.2.2
  obstacles.any fun ob =>
    (ob.altitude_min.all fun m => decide (m ≤ alt)) &&
    (ob.altitude_max.all fun m => decide (alt ≤ m)) &&
    (let geom := if safety_buffer > 0 then ops.buffer ob.geometry (safety_buffer / 111000)
                 else ob.geometry
     ops.containsPt geom lng lat || ops.intersectsPt geom lng lat)

/-- Embedding of `RouteOptimizer._get_neighbors` (route_optimizer.py:451-478):
the 8 horizontal grid steps in source iteration order, plus one step up
and one step down by `altitude_step` (clamped to the altitude range) when
the priority is safety or balanced. The `goal` parameter is kept because
the source signature has it; it is unused in the body. -/
def get_neighbors (node : Node) (goal : Node) (priority : String) : List Node :=
  let _ := goal
  let lat := node.1
  let lng := node.2.1
  let alt := node.2.2
  [(lat - grid_resolution, lng - grid_resolution, alt),
   (lat - grid_resolution, lng, alt),
   (lat - grid_resolution, lng + grid_resolution, alt),
   (lat, lng - grid_resolution, alt),
   (lat, lng + grid_resolution, alt),
   (lat + grid_resolution, lng - grid_resolution, alt),
   (lat + grid_resolution, lng, alt),
   (lat + grid_resolution, lng + grid_resolution, alt)] ++
  (if priority = "safety" ∨ priority = "balanced" then
    (if alt + altitude_step ≤ max_altitude then [(lat, lng, alt + altitude_step)] else []) ++
    (if alt - altitude_step ≥ min_altitude then [(lat, lng, alt - altitude_step)] else [])
   else [])

/-- Embedding of `RouteOptimizer._is_goal` (route_optimizer.py:547-557):
latitude and longitude within `tolerance` of the goal, altitude ignored. -/
def is_goal (node goal : Node) (tolerance : ℚ := 0.001) : Bool :=
  decide (|node.1 - goal.1| < tolerance) && decide (|node.2.1 - goal.2.1| < tolerance)

/-- Priority-dependent edge cost `_edge_cost` (route_optimizer.py:516-545),
parametric in the numeric 3D distance `dist3q` (the float computation
`sqrt(haversine² + (|Δalt|/1000)²)`). -/
def edge_cost_q (dist3q : Node → Node → ℚ) (node1 node2 : Node) (priority : String) : ℚ :=
  let distance := dist3q node1 node2
  let alt1 := node1.2.2
  let alt2 := node2.2.2
  if priority = "speed" then distance
  else if priority = "energy" then distance + (|alt2 - alt1| / 100) * 0.5
  else if priority = "safety" then distance + (if alt2 > alt1 then -0.1 else 0.1)
  else distance + |alt2 - alt1| / 500

/-- Priority-queue entry (dataclass `PriorityNode`, route_optimizer.py:54-60).
Ordering compares only `priority` (the other fields have `compare=False`). -/
structure PriorityNode where
  priority : ℚ
  node : Node
  g_cost : ℚ
  parent : Option Node
deriving Repr, DecidableEq

/-- Pop the minimum-priority entry (`heapq.heappop`); among equal
priorities the earliest-inserted entry is returned (heapq leaves the tie
order unspecified; the proofs below do not depend on it). -/
def popMin : List PriorityNode → Option (PriorityNode × List PriorityNode)
  | [] => none
  | x :: xs =>
    match popMin xs with
    | none => some (x, [])
    | some (m, rest) =>
      if x.priority ≤ m.priority then some (x, xs) else some (m, x :: rest)

/-- Association-list lookup modelling Python dict access keyed by nodes. -/
def alookup {α : Type} (l : List (Node × α)) (k : Node) : Option α :=
  (l.find? (fun p => decide (p.1 = k))).map (·.2)

/-- Association-list update modelling Python dict assignment. -/
def aupdate {α : Type} (l : List (Node × α)) (k : Node) (v : α) : List (Node × α) :=
  if l.any (fun p => decide (p.1 = k)) then
    l.map (fun p => if p.1 = k then (k, v) else p)
  else l ++ [(k, v)]

/-- Mutable state of the A* while-loop: the open heap, the `came_from`
parent map and the `g_score` map. -/
structure LoopState where
  open_set : List PriorityNode
  came_from : List (Node × Node)
  g_score : List (Node × ℚ)

/-- Inner loop of `_reconstruct_path` (route_optimizer.py:584-601):
follow `came_from` links, appending each parent, stopping at the start
node. The source list is built goal-first and reversed by the caller;
fuel bounds the loop (the source relies on the parent map being acyclic). -/
def reconstruct_go (came : List (Node × Node)) (start : Node) :
    ℕ → Node → List Node → List Node
  | 0, _, acc => acc
  | fuel + 1, cur, acc =>
    match alookup came cur with
    | none => acc
    | some v =>
      if v = start then acc ++ [v]
      else reconstruct_go came start fuel v (acc ++ [v])

/-- Embedding of `RouteOptimizer._reconstruct_path` (route_optimizer.py:584-601). -/
def reconstruct_path (came : List (Node × Node)) (current start : Node) : List Node :=
  (reconstruct_go came start (came.length + 1) current [current]).reverse

/-- Per-neighbour body of the A* loop (route_optimizer.py:315-333): skip
neighbours inside an obstacle; otherwise relax via `tentative_g` and push
with `f = g + h` when the neighbour is new or improved. -/
def process_neighbor {G : Type} (ops : GeomOps G) (obstacles : List (Obstacle G))
    (edgeCost : Node → Node → ℚ) (heurTo : Node → ℚ) (cur : Node)
    (st : LoopState) (n : Node) : LoopState :=
  if is_in_obstacle ops n obstacles then st
  else
    let tentative_g := (alookup st.g_score cur).getD 0 + edgeCost cur n
    let improved := match alookup st.g_score n with
      | none => true
      | some g => decide (tentative_g < g)
    if improved then
      let f := tentative_g + heurTo n
      { open_set := st.open_set ++ [⟨f, n, tentative_g, some cur⟩]
        came_from := aupdate st.came_from n cur
        g_score := aupdate st.g_score n tentative_g }
    else st

/-- Outcome of the A* while-loop. -/
inductive SearchOutcome
  | found (pathNodes : List Node)
  | exhausted
deriving Repr, DecidableEq

/-- The A* while-loop (route_optimizer.py:292-333), fuel-counted by the
remaining node-expansion budget (`max_iterations - nodes_explored`). -/
def astar_loop {G : Type} (ops : GeomOps G) (obstacles : List (Obstacle G))
    (edgeCost : Node → Node → ℚ) (heurTo : Node → ℚ)
    (goal start_node : Node) (priority : String) :
    ℕ → LoopState → SearchOutcome
  | 0, _ => .exhausted
  | fuel + 1, st =>
    match popMin st.open_set with
    | none => .exhausted
    | some (cur, rest) =>
      if is_goal cur.node goal then
        .found (reconstruct_path st.came_from cur.node start_node)
      else
        let ns := get_neighbors cur.node goal priority
        let st' := ns.foldl (process_neighbor ops obstacles edgeCost heurTo cur.node)
          { st with open_set := rest }
        astar_loop ops obstacles edgeCost heurTo goal start_node priority fuel st'

/-- Waypoint record (dataclass `Waypoint`, route_optimizer.py:22-33). -/
structure Waypoint where
  lat : ℚ
  lng : ℚ
  altitude : ℚ
  action : String := "navigate"
  reason : Option String := none
  segment_distance : ℚ := 0
  estimated_time : ℚ := 0
  wind_factor : ℚ := 1
  safety_score : ℚ := 1
deriving Repr, DecidableEq

/-- Python `int()` truncation toward zero on a rational. -/
def pyInt (x : ℚ) : ℤ := x.num / (x.den : ℤ)

/-- Embedding of `RouteOptimizer._nodes_to_waypoints` (route_optimizer.py:603-639),
parametric in the numeric 2D haversine `hav` used for `segment_distance`.
The `priority` parameter of the source is unused in its body. -/
def nodes_to_waypoints (hav : ℚ → ℚ → ℚ → ℚ → ℚ) (nodes : List Node)
    (priority : String) : List Waypoint :=
  let _ := priority
  nodes.enum.map fun p =>
    let i := p.1
    let n := p.2
    let prevAlt : Option ℚ := (nodes[i-1]?).map (·.2.2)
    let actionReason : String × Option String :=
      if i = 0 then ("start", some "departure_point")
      else if i = nodes.length - 1 then ("end", some "destination")
      else
        match prevAlt with
        | some pa =>
          if pa ≠ n.2.2 then
            let k := pyInt n.2.2
            (if n.2.2 > pa then "ascend" else "descend", some s!"altitude_change_to_{k}m")
          else ("navigate", none)
        | none => ("navigate", none)
    let seg : ℚ :=
      if i = 0 then 0
      else
        match nodes[i-1]? with
        | some prev => hav prev.1 prev.2.1 n.1 n.2.1
        | none => 0
    { lat := n.1, lng := n.2.1, altitude := n.2.2
      action := actionReason.1, reason := actionReason.2
      segment_distance := seg }

/-- Embedding of `RouteOptimizer._fallback_route_with_avoidance`
(route_optimizer.py:641-693): the direct start/end pair with one `avoid`
waypoint per obstacle intersecting the direct segment, offset from the
midpoint toward the obstacle centroid's side. (Python would raise
`ZeroDivisionError` when the `abs(...)` normaliser is exactly zero;
rational division by zero yields 0 here — the claims never reach this.) -/
def fallback_route_with_avoidance {G : Type} (ops : GeomOps G) (start endP : P2)
    (altitude : ℚ) (obstacles : List (Obstacle G)) : List Waypoint :=
  let startWp : Waypoint :=
    { lat := start.y, lng := start.x, altitude := altitude
      action := "start", reason := some "departure_point" }
  let avoidWps := obstacles.filterMap fun ob =>
    if ops.intersectsLine ob.geometry (start.x, start.y) (endP.x, endP.y) then
      let c := ops.centroid ob.geometry
      let mid_lat := (start.y + endP.y) / 2
      let mid_lng := (start.x + endP.x) / 2
      let offset_distance : ℚ := 0.01
      let avoid_lat := mid_lat + (c.2 - mid_lat) / |c.2 - mid_lat + 0.001| * offset_distance
      let avoid_lng := mid_lng + (c.1 - mid_lng) / |c.1 - mid_lng + 0.001| * offset_distance
      some { lat := avoid_lat, lng := avoid_lng, altitude := altitude
             action := "avoid"
             reason := some ("avoiding_" ++ ob.otype ++ "_" ++ ob.name) }
    else none
  ([startWp] ++ avoidWps) ++
    [{ lat := endP.y, lng := endP.x, altitude := altitude
       action := "end", reason := some "destination" }]

/-- Waypoint actions retained by smoothing (route_optimizer.py:710). -/
def essential_action (a : String) : Bool :=
  a = "avoid" || a = "ascend" || a = "descend" || a = "hover"

/-- Embedding of `RouteOptimizer._smooth_route` (route_optimizer.py:695-725):
keep index 0, the last index, and interior waypoints whose action is
avoid / ascend / descend / hover. -/
def smooth_route (wps : List Waypoint) : List Waypoint :=
  if wps.length ≤ 2 then wps
  else
    (wps.enum.filter fun p =>
      p.1 = 0 || p.1 = wps.length - 1 || essential_action p.2.action).map (·.2)

/-- Embedding of `RouteOptimizer._get_terrain_elevation`
(route_optimizer.py:757-761): the placeholder returns sea level. -/
def get_terrain_elevation (lat lng : ℚ) : ℚ :=
  let _ := lat
  let _ := lng
  0

/-- Embedding of `RouteOptimizer._apply_terrain_following`
(route_optimizer.py:727-755): raise any waypoint below
`terrain + min_terrain_clearance` and tag the reason. -/
def apply_terrain_following (wps : List Waypoint) : List Waypoint :=
  wps.map fun wp =>
    let terrain_elevation := get_terrain_elevation wp.lat wp.lng
    let min_safe_altitude := terrain_elevation + min_terrain_clearance
    if wp.altitude < min_safe_altitude then
      { wp with altitude := min_safe_altitude,
                reason := some ((wp.reason.getD "navigate") ++ "_terrain_adjusted") }
    else wp

/-- Embedding of `RouteOptimizer._apply_weather_adjustments`
(route_optimizer.py:763-789), parametric in the numeric wind-factor
computation `windF prev cur` (the float expression
`1 + cos(radians(wind_angle_diff)) * wind_speed / 100`). Only
`wind_factor` is written; positions, altitudes and actions are untouched. -/
def apply_weather_adjustments (windF : Waypoint → Waypoint → ℚ)
    (wps : List Waypoint) : List Waypoint :=
  wps.enum.map fun p =>
    let i := p.1
    let wp := p.2
    if i = 0 then wp
    else
      match wps[i-1]? with
      | some prev => { wp with wind_factor := pymax 0.7 (pymin 1.3 (windF prev wp)) }
      | none => wp

/-- Route metrics (dataclass `RouteMetrics`, route_optimizer.py:36-51).
`computation_time_ms` is wall-clock time, modelled as 0. -/
structure RouteMetrics where
  total_distance_km : ℚ
  direct_distance_km : ℚ
  detour_percent : ℚ
  estimated_duration_minutes : ℚ
  waypoint_count : ℕ
  altitude_changes : ℕ
  no_fly_zones_avoided : ℕ
  weather_hazards_avoided : ℕ
  terrain_clearance_min : ℚ
  avg_segment_length : ℚ
  complexity_score : ℚ
  optimization_method : String
  computation_time_ms : ℚ
deriving Repr, DecidableEq

/-- Python substring containment `needle in haystack`. -/
def strContains (haystack needle : String) : Bool :=
  (haystack.splitOn needle).length ≠ 1

/-- Embedding of `RouteOptimizer._calculate_metrics` (route_optimizer.py:804-854).
Note `optimization_method` is set to the requested `method` string even
when the waypoints came from the fallback. -/
def calculate_metrics (wps : List Waypoint) (direct_distance : ℚ)
    (method : String) (drone_speed : ℚ) : RouteMetrics :=
  let total_distance := (wps.map (·.segment_distance)).sum
  let detour_percent :=
    if direct_distance > 0 then ((total_distance - direct_distance) / direct_distance) * 100
    else 0
  let altitude_changes :=
    (wps.filter fun w => w.action = "ascend" || w.action = "descend").length
  let avg_speed := drone_speed * 0.8
  let estimated_duration := (total_distance / avg_speed) * 60
  let complexity := pymin 1
    ((wps.length : ℚ) / 20 * 0.4 + (altitude_changes : ℚ) / 5 * 0.3 + detour_percent / 50 * 0.3)
  { total_distance_km := pyRound total_distance 3
    direct_distance_km := pyRound direct_distance 3
    detour_percent := pyRound detour_percent 2
    estimated_duration_minutes := pyRound estimated_duration 2
    waypoint_count := wps.length
    altitude_changes := altitude_changes
    no_fly_zones_avoided := (wps.filter fun w => strContains (w.reason.getD "") "no_fly").length
    weather_hazards_avoided := (wps.filter fun w => strContains (w.reason.getD "") "weather").length
    terrain_clearance_min := pyListMin (wps.map (·.altitude)) 0
    avg_segment_length := pyRound (total_distance / pymax ((wps.length : ℚ) - 1) 1) 3
    complexity_score := pyRound complexity 3
    optimization_method := method
    computation_time_ms := 0 }

/-- Embedding of `RouteOptimizer._create_bbox` (route_optimizer.py:878-894). -/
def create_bbox {G : Type} (ops : GeomOps G) (start endP : P2) (buffer_km : ℚ) : G :=
  let min_lat := min start.y endP.y - buffer_km / 111
  let max_lat := max start.y endP.y + buffer_km / 111
  let min_lng := min start.x endP.x - buffer_km / 111
  let max_lng := max start.x endP.x + buffer_km / 111
  ops.rectPolygon min_lng min_lat max_lng max_lat

/-- Embedding of `RouteOptimizer._get_obstacles` (route_optimizer.py:362-436).
When `avoids_no_fly` is true the source builds the queryset
`NoFlyZone.objects.filter(boundary__intersects=bbox, is_active=True)
.only('id', 'boundary', 'name', 'altitude_restriction')` (lines 380-383);
`NoFlyZone` (zones/models.py:48-106) has no field named
`altitude_restriction`, so evaluating the queryset at the
`for zone in no_fly_zones:` loop raises `FieldDoesNotExist` before any
row is fetched, whatever the table contents. The surrounding `try`
catches only `ImportError` (line 399) and `apps.zones` is installed, so
the exception propagates out of `_get_obstacles` and the static-zone
block below it is never reached. When `avoids_no_fly` is false neither
zone block runs; `_get_weather_hazards` returns the empty list
(route_optimizer.py:438-449). -/
def get_obstacles {G : Type} (ops : GeomOps G) (zones : List (NoFlyZoneRec G))
    (start endP : P2) (avoids_no_fly avoids_weather : Bool) :
    Except String (List (Obstacle G)) :=
  let _bbox := create_bbox ops start endP 5
  let _ := zones
  if avoids_no_fly then
    .error "FieldDoesNotExist: NoFlyZone has no field named altitude_restriction"
  else
    let weatherHazards : List (Obstacle G) := []
    let _ := avoids_weather
    .ok weatherHazards

/-- Embedding of `RouteOptimizer._astar_route` (route_optimizer.py:253-340).
Returns the waypoint list and a flag recording whether the A* search was
exhausted and the fallback produced the waypoints (the two return sites
of the source). `dist3q` abstracts the numeric 3D distance used by both
the heuristic and the edge cost; `hav` the numeric 2D haversine. -/
def astar_route {G : Type} (ops : GeomOps G) (dist3q : Node → Node → ℚ)
    (hav : ℚ → ℚ → ℚ → ℚ → ℚ) (start endP : P2) (altitude : ℚ)
    (obstacles : List (Obstacle G)) (priority : String) : List Waypoint × Bool :=
  let start_node : Node := (start.y, start.x, altitude)
  let end_node : Node := (endP.y, endP.x, altitude)
  let init : LoopState :=
    { open_set := [⟨0, start_node, 0, none⟩]
      came_from := []
      g_score := [(start_node, 0)] }
  match astar_loop ops obstacles (fun a b => edge_cost_q dist3q a b priority)
      (fun n => dist3q n end_node) end_node start_node priority max_iterations init with
  | .found nodes => (nodes_to_waypoints hav nodes priority, false)
  | .exhausted => (fallback_route_with_avoidance ops start endP altitude obstacles, true)

/-- Embedding of `RouteOptimizer._direct_route` (route_optimizer.py:226-251);
`calcDist` abstracts `_calculate_distance` (a PostGIS query with a
haversine fallback). -/
def direct_route (calcDist : P2 → P2 → ℚ) (start endP : P2) (altitude : ℚ) :
    List Waypoint :=
  let distance := calcDist start endP
  [{ lat := start.y, lng := start.x, altitude := altitude
     action := "start", reason := some "departure_point", segment_distance := distance },
   { lat := endP.y, lng := endP.x, altitude := altitude
     action := "end", reason := some "destination" }]

/-- Embedding of `RouteOptimizer._validate_altitude` (route_optimizer.py:896-916).
`max_altitude or self.max_altitude`: `None` (and a 0.0 parameter, by
Python falsiness) selects the default cap. -/
def validate_altitude (altitude : ℚ) (maxAlt : Option ℚ) : ℚ :=
  let max_alt := match maxAlt with
    | some m => if m = 0 then max_altitude else m
    | none => max_altitude
  if altitude < min_altitude then min_altitude
  else if altitude > max_alt then max_alt
  else altitude

/-- Final result triple of `optimize_route`: the rebuilt `LineString`
path (points stored `(lng, lat, alt)` as in `Point(wp.lng, wp.lat, wp.altitude)`),
the metrics and the final waypoints. `used_fallback` records which
`_astar_route` return site produced the waypoints (model bookkeeping;
the source reports `optimization_method = method` in both cases). -/
structure OptimizeResult where
  path : List (ℚ × ℚ × ℚ)
  metrics : RouteMetrics
  waypoints : List Waypoint
  used_fallback : Bool
deriving Repr, DecidableEq

/-- The uncached computation of `RouteOptimizer.optimize_route`
(route_optimizer.py:147-224): validate altitude, dispatch on the method
(`dijkstra` and `rl` both call `_astar_route`, route_optimizer.py:342-360
and 172-178; an unknown method raises `ValueError`), compute metrics,
apply terrain following, weather adjustments and smoothing, rebuild the
path and update the waypoint-dependent metric fields. -/
def compute_route {G : Type} (ops : GeomOps G) (dist3q : Node → Node → ℚ)
    (hav : ℚ → ℚ → ℚ → ℚ → ℚ) (calcDist : P2 → P2 → ℚ)
    (windF : Waypoint → Waypoint → ℚ) (zones : List (NoFlyZoneRec G))
    (start endP : P2) (altitude : ℚ) (maxAlt : Option ℚ)
    (avoids_no_fly avoids_weather avoids_terrain : Bool)
    (drone_max_speed : ℚ) (method : String) (hasWeatherData : Bool)
    (priority : String) : Except String OptimizeResult :=
  let alt := validate_altitude altitude maxAlt
  let direct_distance := calcDist start endP
  let wpsFb : Except String (List Waypoint × Bool) :=
    if method = "direct" then .ok (direct_route calcDist start endP alt, false)
    else if method = "dijkstra" ∨ method = "astar" ∨ method = "rl" then
      match get_obstacles ops zones start endP avoids_no_fly avoids_weather with
      | .error e => .error e
      | .ok obstacles =>
        .ok (astar_route ops dist3q hav start endP alt obstacles priority)
    else .error ("Unknown optimization method: " ++ method)
  match wpsFb with
  | .error e => .error e
  | .ok (wps0, fb) =>
    let metrics := calculate_metrics wps0 direct_distance method drone_max_speed
    let wps1 := if avoids_terrain then apply_terrain_following wps0 else wps0
    let wps2 := if avoids_weather && hasWeatherData then
        apply_weather_adjustments windF wps1
      else wps1
    let wps := smooth_route wps2
    let path := wps.map fun w => (w.lng, w.lat, w.altitude)
    let metrics := { metrics with
      waypoint_count := wps.length
      avg_segment_length := metrics.total_distance_km / pymax ((wps.length : ℚ) - 1) 1 }
    .ok { path := path, metrics := metrics, waypoints := wps, used_fallback := fb }

/-- Cache key data of `RouteOptimizer._get_cache_key` (route_optimizer.py:918-922).
The source key is `md5(f"{start.y:.6f}_{start.x:.6f}_{end.y:.6f}_{end.x:.6f}_{altitude}_{method}_{avoids_no_fly}_{avoids_weather}")`;
the hashed string is determined by exactly these eight values, so the key
is modelled as the eight-tuple itself (md5 collisions between distinct
keys are not modelled; values formatted identically at 6 decimals share a
key exactly when the claims' hypotheses say they do). -/
structure RouteCacheKey where
  start_y : ℚ
  start_x : ℚ
  end_y : ℚ
  end_x : ℚ
  altitude : ℚ
  method : String
  avoids_no_fly : Bool
  avoids_weather : Bool
deriving Repr, DecidableEq

/-- Embedding of `RouteOptimizer._get_cache_key`. -/
def get_cache_key (start endP : P2) (altitude : ℚ) (method : String)
    (avoids_no_fly avoids_weather : Bool) : RouteCacheKey :=
  ⟨start.y, start.x, endP.y, endP.x, altitude, method, avoids_no_fly, avoids_weather⟩

/-- Embedding of `RouteOptimizer.optimize_route` (route_optimizer.py:93-224)
including the cache layer (lines 138-145 and 217-219): the cache is
consulted before anything else and a hit is returned unchanged; the
remaining parameters (priority, drone_max_speed, weather, terrain flags)
do not enter the key. `cacheStore` is the external cache state. -/
def optimize_route {G : Type} (ops : GeomOps G) (dist3q : Node → Node → ℚ)
    (hav : ℚ → ℚ → ℚ → ℚ → ℚ) (calcDist : P2 → P2 → ℚ)
    (windF : Waypoint → Waypoint → ℚ) (zones : List (NoFlyZoneRec G))
    (cache_enabled : Bool) (cacheStore : RouteCacheKey → Option OptimizeResult)
    (start endP : P2) (altitude : ℚ) (maxAlt : Option ℚ)
    (avoids_no_fly avoids_weather avoids_terrain : Bool)
    (drone_max_speed : ℚ) (method : String) (hasWeatherData : Bool)
    (priority : String) : Except String OptimizeResult :=
  let key := get_cache_key start endP altitude method avoids_no_fly avoids_weather
  let cached := if cache_enabled then cacheStore key else none
  match cached with
  | some r => .ok r
  | none =>
    compute_route ops dist3q hav calcDist windF zones start endP altitude maxAlt
      avoids_no_fly avoids_weather avoids_terrain drone_max_speed method
      hasWeatherData priority

/-- Decidable equality on `Except`, used to evaluate optimizer results on
concrete inputs. -/
instance {ε α : Type} [DecidableEq ε] [DecidableEq α] : DecidableEq (Except ε α) := fun x y =>
  match x, y with
  | .ok a, .ok b =>
    if h : a = b then .isTrue (by rw [h])
    else .isFalse (fun hc => h (by cases hc; rfl))
  | .error a, .error b =>
    if h : a = b then .isTrue (by rw [h])
    else .isFalse (fun hc => h (by cases hc; rfl))
  | .ok _, .error _ => .isFalse (fun hc => Except.noConfusion hc)
  | .error _, .ok _ => .isFalse (fun hc => Except.noConfusion hc)

/-- Search-loop invariant used to reason about `astar_loop`: every node in
the open set and every key and value of the parent map satisfies `Q`. -/
def LoopInv (Q : Node → Prop) (st : LoopState) : Prop :=
  (∀ pn ∈ st.open_set, Q pn.node) ∧ (∀ pr ∈ st.came_from, Q pr.1 ∧ Q pr.2)

/-! ## Real-valued cost geometry

The float computations of `_haversine`, `_heuristic` and `_edge_cost`
involve trigonometric functions and square roots, so they are modelled
over `ℝ` (noncomputable by nature); IEEE rounding error is out of scope. -/

/-- Degrees to radians (`np.radians`). -/
noncomputable def radiansR (x : ℝ) : ℝ := x * (Real.pi / 180)

/-- Embedding of `RouteOptimizer._haversine` (route_optimizer.py:501-514),
returning kilometres. -/
noncomputable def haversine (lat1 lng1 lat2 lng2 : ℝ) : ℝ :=
  let R : ℝ := 6371
  let lat1_rad := radiansR lat1
  let lng1_rad := radiansR lng1
  let lat2_rad := radiansR lat2
  let lng2_rad := radiansR lng2
  let dlat := lat2_rad - lat1_rad
  let dlng := lng2_rad - lng1_rad
  let a := Real.sin (dlat / 2) ^ 2 +
    Real.cos lat1_rad * Real.cos lat2_rad * Real.sin (dlng / 2) ^ 2
  let c := 2 * Real.arcsin (Real.sqrt a)
  R * c

/-- The 3D distance `sqrt(horizontal² + vertical²)` shared by `_heuristic`
(route_optimizer.py:480-499) and the base distance of `_edge_cost`
(route_optimizer.py:516-529). -/
noncomputable def dist3 (node1 node2 : Node) : ℝ :=
  let horizontal_dist := haversine (node1.1 : ℝ) (node1.2.1 : ℝ) (node2.1 : ℝ) (node2.2.1 : ℝ)
  let vertical_dist := |(node2.2.2 : ℝ) - (node1.2.2 : ℝ)| / 1000
  Real.sqrt (horizontal_dist ^ 2 + vertical_dist ^ 2)

/-- Embedding of `RouteOptimizer._heuristic` (route_optimizer.py:480-499). -/
noncomputable def heuristic (node goal : Node) : ℝ := dist3 node goal

/-- Embedding of `RouteOptimizer._edge_cost` (route_optimizer.py:516-545)
over the real-valued distance. -/
noncomputable def edge_cost (node1 node2 : Node) (priority : String) : ℝ :=
  let distance := dist3 node1 node2
  let alt1 := (node1.2.2 : ℝ)
  let alt2 := (node2.2.2 : ℝ)
  if priority = "speed" then distance
  else if priority = "energy" then distance + (|alt2 - alt1| / 100) * 0.5
  else if priority = "safety" then distance + (if alt2 > alt1 then -0.1 else 0.1)
  else distance + |alt2 - alt1| / 500

/-! ## Concrete geometry: axis-aligned rectangles

A computable instantiation of `GeomOps` used to evaluate the optimizer on
concrete inputs. For axis-aligned rectangular zones the GEOS point
containment, point/region intersection and rectangle-rectangle
intersection tests are exact interval conditions, modelled exactly below.
GEOS `buffer` produces rounded corners; the bounding expansion modelled
here agrees with it away from the corner arcs, and every concrete fact
proved below only uses points strictly inside the unbuffered rectangle,
where the two agree. -/

structure Rect where
  min_x : ℚ
  max_x : ℚ
  min_y : ℚ
  max_y : ℚ
deriving Repr, DecidableEq

/-- Expand a rectangle by `d` on every side (buffer). -/
def Rect.bufferR (r : Rect) (d : ℚ) : Rect :=
  ⟨r.min_x - d, r.max_x + d, r.min_y - d, r.max_y + d⟩

/-- Interior containment of a point (GEOS `contains`). -/
def Rect.containsPtR (r : Rect) (x y : ℚ) : Bool :=
  decide (r.min_x < x) && decide (x < r.max_x) &&
  decide (r.min_y < y) && decide (y < r.max_y)

/-- Closed containment of a point (GEOS `intersects` with a point). -/
def Rect.intersectsPtR (r : Rect) (x y : ℚ) : Bool :=
  decide (r.min_x ≤ x) && decide (x ≤ r.max_x) &&
  decide (r.min_y ≤ y) && decide (y ≤ r.max_y)

/-- Rectangle–rectangle intersection. -/
def Rect.intersectsR (a b : Rect) : Bool :=
  decide (a.min_x ≤ b.max_x) && decide (b.min_x ≤ a.max_x) &&
  decide (a.min_y ≤ b.max_y) && decide (b.min_y ≤ a.max_y)

/-- Parameter interval of `{t | lo ≤ a + t*(b-a) ≤ hi}` for one axis of a
segment, used by the exact segment–rectangle test. -/
def axisInterval (a b lo hi : ℚ) : Option (ℚ × ℚ) :=
  if a = b then (if lo ≤ a ∧ a ≤ hi then some (0, 1) else none)
  else
    let t1 := (lo - a) / (b - a)
    let t2 := (hi - a) / (b - a)
    some (pymin t1 t2, pymax t1 t2)

/-- Exact segment–rectangle intersection (GEOS `intersects` with a
2-point `LineString`). -/
def Rect.intersectsLineR (r : Rect) (p q : ℚ × ℚ) : Bool :=
  match axisInterval p.1 q.1 r.min_x r.max_x, axisInterval p.2 q.2 r.min_y r.max_y with
  | some ix, some iy => decide (pymax 0 (pymax ix.1 iy.1) ≤ pymin 1 (pymin ix.2 iy.2))
  | _, _ => false

/-- Centroid of a rectangle. -/
def Rect.centroidR (r : Rect) : ℚ × ℚ :=
  ((r.min_x + r.max_x) / 2, (r.min_y + r.max_y) / 2)

/-- The `GeomOps` instantiation at axis-aligned rectangles. -/
def rectOps : GeomOps Rect :=
  { buffer := Rect.bufferR
    containsPt := Rect.containsPtR
    intersectsPt := Rect.intersectsPtR
    intersectsGeom := Rect.intersectsR
    intersectsLine := Rect.intersectsLineR
    centroid := Rect.centroidR
    rectPolygon := fun min_lng min_lat max_lng max_lat => ⟨min_lng, max_lng, min_lat, max_lat⟩ }

/-! ## Helper lemmas for the A* search invariant -/

/-- An element popped by `popMin` was in the list, and the remainder is a
sub-collection of the list. -/
theorem popMin_mem : ∀ (l : List PriorityNode) (p : PriorityNode) (rest : List PriorityNode),
    popMin l = some (p, rest) → p ∈ l ∧ ∀ q ∈ rest, q ∈ l := by
  intro l
  induction l with
  | nil => intro p rest h; simp [popMin] at h
  | cons x xs ih =>
    intro p rest h
    unfold popMin at h
    cases hx : popMin xs with
    | none =>
      rw [hx] at h
      simp only [Option.some.injEq, Prod.mk.injEq] at h
      obtain ⟨rfl, rfl⟩ := h
      exact ⟨List.mem_cons_self _ _, by simp⟩
    | some mr =>
      obtain ⟨m, r⟩ := mr
      rw [hx] at h
      dsimp only at h
      by_cases hle : x.priority ≤ m.priority
      · rw [if_pos hle] at h
        simp only [Option.some.injEq, Prod.mk.injEq] at h
        obtain ⟨rfl, rfl⟩ := h
        exact ⟨List.mem_cons_self _ _, fun q hq => List.mem_cons_of_mem _ hq⟩
      · rw [if_neg hle] at h
        simp only [Option.some.injEq, Prod.mk.injEq] at h
        obtain ⟨rfl, rfl⟩ := h
        obtain ⟨hm, hr⟩ := ih _ _ hx
        refine ⟨List.mem_cons_of_mem _ hm, fun q hq => ?_⟩
        rcases List.mem_cons.mp hq with rfl | hq'
        · exact List.mem_cons_self _ _
        · exact List.mem_cons_of_mem _ (hr q hq')

/-- A successful association-list lookup exhibits a member pair. -/
theorem alookup_mem {α : Type} {l : List (Node × α)} {k : Node} {v : α}
    (h : alookup l k = some v) : (k, v) ∈ l := by
  unfold alookup at h
  cases hf : l.find? (fun p => decide (p.1 = k)) with
  | none => rw [hf] at h; simp at h
  | some q =>
    rw [hf] at h
    simp only [Option.map_some', Option.some.injEq] at h
    have hq := List.find?_some hf
    have hk : q.1 = k := by simpa using hq
    have hmem := List.mem_of_find?_eq_some hf
    have hqe : q = (k, v) := by
      obtain ⟨q1, q2⟩ := q
      simp only at h hk
      rw [hk, h]
    rw [← hqe]
    exact hmem

/-- Members of an updated association list are old members or the new pair. -/
theorem mem_aupdate {α : Type} {l : List (Node × α)} {k : Node} {v : α} {p : Node × α}
    (h : p ∈ aupdate l k v) : p ∈ l ∨ p = (k, v) := by
  unfold aupdate at h
  split at h
  · obtain ⟨q, hq, he⟩ := List.mem_map.mp h
    by_cases hqk : q.1 = k
    · right; rw [if_pos hqk] at he; exact he.symm
    · left; rw [if_neg hqk] at he; exact he ▸ hq
  · rcases List.mem_append.mp h with h1 | h1
    · exact .inl h1
    · right; simpa using h1

/-- Every node collected by the reconstruction loop is in the seed
accumulator or is a value of the parent map. -/
theorem reconstruct_go_mem (came : List (Node × Node)) (start : Node) :
    ∀ (fuel : ℕ) (cur : Node) (acc : List Node) (n : Node),
      n ∈ reconstruct_go came start fuel cur acc →
      n ∈ acc ∨ ∃ k, (k, n) ∈ came := by
  intro fuel
  induction fuel with
  | zero =>
    intro cur acc n hn
    exact .inl (by simpa [reconstruct_go] using hn)
  | succ f ih =>
    intro cur acc n hn
    unfold reconstruct_go at hn
    cases hl : alookup came cur with
    | none => rw [hl] at hn; exact .inl hn
    | some v =>
      rw [hl] at hn
      dsimp only at hn
      have hv : (cur, v) ∈ came := alookup_mem hl
      by_cases hvs : v = start
      · rw [if_pos hvs] at hn
        rcases List.mem_append.mp hn with h1 | h1
        · exact .inl h1
        · simp only [List.mem_singleton] at h1
          subst h1
          exact .inr ⟨cur, hv⟩
      · rw [if_neg hvs] at hn
        rcases ih v (acc ++ [v]) n hn with h1 | h1
        · rcases List.mem_append.mp h1 with h2 | h2
          · exact .inl h2
          · simp only [List.mem_singleton] at h2
            subst h2
            exact .inr ⟨cur, hv⟩
        · exact .inr h1

/-- A node of a reconstructed path is the goal-side node or a value of the
parent map. -/
theorem reconstruct_path_mem {came : List (Node × Node)} {cur start n : Node}
    (h : n ∈ reconstruct_path came cur start) : n = cur ∨ ∃ k, (k, n) ∈ came := by
  unfold reconstruct_path at h
  rw [List.mem_reverse] at h
  rcases reconstruct_go_mem came start _ cur [cur] n h with h1 | h1
  · left; simpa using h1
  · right; exact h1

/-- Processing one neighbour preserves the loop invariant: any pushed or
recorded node passed the obstacle check. -/
theorem process_neighbor_inv {G : Type} {ops : GeomOps G} {obstacles : List (Obstacle G)}
    {ec : Node → Node → ℚ} {hf : Node → ℚ} {cur : Node} {st : LoopState} {n : Node}
    {Q : Node → Prop}
    (hn : is_in_obstacle ops n obstacles = false → Q n)
    (hcur : Q cur) (hst : LoopInv Q st) :
    LoopInv Q (process_neighbor ops obstacles ec hf cur st n) := by
  simp only [process_neighbor]
  by_cases hob : is_in_obstacle ops n obstacles = true
  · rw [if_pos hob]; exact hst
  · rw [if_neg hob]
    have hQn : Q n := hn (by simpa using hob)
    split
    · constructor
      · intro pn hpn
        rcases List.mem_append.mp hpn with h1 | h1
        · exact hst.1 pn h1
        · simp only [List.mem_singleton] at h1
          subst h1
          exact hQn
      · intro pr hpr
        rcases mem_aupdate hpr with h1 | h1
        · exact hst.2 pr h1
        · subst h1; exact ⟨hQn, hcur⟩
    · exact hst

/-- Folding the neighbour processing over a list of obstacle-checked-or-good
neighbours preserves the loop invariant. -/
theorem foldl_process_inv {G : Type} {ops : GeomOps G} {obstacles : List (Obstacle G)}
    {ec : Node → Node → ℚ} {hf : Node → ℚ} {cur : Node} {Q : Node → Prop}
    (hcur : Q cur) :
    ∀ (ns : List Node), (∀ n ∈ ns, is_in_obstacle ops n obstacles = false → Q n) →
    ∀ st : LoopState, LoopInv Q st →
    LoopInv Q (ns.foldl (process_neighbor ops obstacles ec hf cur) st) := by
  intro ns
  induction ns with
  | nil => intro _ st hst; simpa using hst
  | cons a l ih =>
    intro hns st hst
    simp only [List.foldl_cons]
    exact ih (fun n hn => hns n (List.mem_cons_of_mem _ hn)) _
      (process_neighbor_inv (hns a (List.mem_cons_self _ _)) hcur hst)

/-- Main search invariant: whenever the A* loop succeeds from a state
satisfying the invariant, every node of the returned path satisfies `Q`,
for any `Q` preserved along obstacle-checked neighbour steps. -/
theorem astar_loop_found_inv {G : Type} {ops : GeomOps G} {obstacles : List (Obstacle G)}
    {ec : Node → Node → ℚ} {hf : Node → ℚ} {goal start_node : Node} {priority : String}
    {Q : Node → Prop}
    (hclosed : ∀ c n, Q c → n ∈ get_neighbors c goal priority →
      is_in_obstacle ops n obstacles = false → Q n) :
    ∀ (fuel : ℕ) (st : LoopState) (path : List Node), LoopInv Q st →
      astar_loop ops obstacles ec hf goal start_node priority fuel st = .found path →
      ∀ n ∈ path, Q n := by
  intro fuel
  induction fuel with
  | zero => intro st path hinv h; simp [astar_loop] at h
  | succ f ih =>
    intro st path hinv h
    unfold astar_loop at h
    cases hpop : popMin st.open_set with
    | none => rw [hpop] at h; simp at h
    | some pr =>
      obtain ⟨cur, rest⟩ := pr
      rw [hpop] at h
      dsimp only at h
      obtain ⟨hcurmem, hrest⟩ := popMin_mem st.open_set cur rest hpop
      have hcur : Q cur.node := hinv.1 cur hcurmem
      by_cases hg : is_goal cur.node goal = true
      · rw [if_pos hg] at h
        simp only [SearchOutcome.found.injEq] at h
        subst h
        intro n hn
        rcases reconstruct_path_mem hn with rfl | ⟨k, hk⟩
        · exact hcur
        · exact (hinv.2 (k, n) hk).2
      · rw [if_neg hg] at h
        refine ih _ path ?_ h
        exact foldl_process_inv hcur _
          (fun n hn hno => hclosed cur.node n hcur hn hno) _
          ⟨fun pn hpn => hinv.1 pn (hrest pn hpn), hinv.2⟩

/-- Altitude bounds are preserved along neighbour generation: horizontal
steps keep the altitude, vertical steps are guarded by the clamps. -/
theorem get_neighbors_alt_bounds {c n goal : Node} {priority : String}
    (hmem : n ∈ get_neighbors c goal priority)
    (hlo : min_altitude ≤ c.2.2) (hhi : c.2.2 ≤ max_altitude) :
    min_altitude ≤ n.2.2 ∧ n.2.2 ≤ max_altitude := by
  unfold get_neighbors at hmem
  rcases List.mem_append.mp hmem with h8 | hv
  · simp only [List.mem_cons, List.mem_singleton, List.not_mem_nil, or_false] at h8
    rcases h8 with rfl | rfl | rfl | rfl | rfl | rfl | rfl | rfl <;> exact ⟨hlo, hhi⟩
  · by_cases hp : priority = "safety" ∨ priority = "balanced"
    · rw [if_pos hp] at hv
      rcases List.mem_append.mp hv with hu | hd
      · by_cases hg : c.2.2 + altitude_step ≤ max_altitude
        · rw [if_pos hg] at hu
          simp only [List.mem_singleton] at hu
          subst hu
          constructor
          · show min_altitude ≤ c.2.2 + altitude_step
            have h0 : (0 : ℚ) ≤ altitude_step := by norm_num [altitude_step]
            linarith
          · exact hg
        · rw [if_neg hg] at hu; simp at hu
      · by_cases hg : c.2.2 - altitude_step ≥ min_altitude
        · rw [if_pos hg] at hd
          simp only [List.mem_singleton] at hd
          subst hd
          constructor
          · exact hg
          · show c.2.2 - altitude_step ≤ max_altitude
            have h0 : (0 : ℚ) ≤ altitude_step := by norm_num [altitude_step]
            linarith
        · rw [if_neg hg] at hd; simp at hd
    · rw [if_neg hp] at hv; simp at hv

/-- A waypoint produced from a node list carries some node's coordinates. -/
theorem mem_nodes_to_waypoints {hav : ℚ → ℚ → ℚ → ℚ → ℚ} {nodes : List Node}
    {priority : String} {w : Waypoint}
    (h : w ∈ nodes_to_waypoints hav nodes priority) :
    (w.lat, w.lng, w.altitude) ∈ nodes := by
  unfold nodes_to_waypoints at h
  obtain ⟨⟨i, n⟩, hmem, he⟩ := List.mem_map.mp h
  have hn : n ∈ nodes := by
    rw [← List.enum_map_snd nodes]
    exact List.mem_map_of_mem _ hmem
  have h1 : w.lat = n.1 := by rw [← he]
  have h2 : w.lng = n.2.1 := by rw [← he]
  have h3 : w.altitude = n.2.2 := by rw [← he]
  rw [h1, h2, h3]
  exact hn

/-- Smoothing only selects a subset of the waypoints. -/
theorem mem_smooth_route {wps : List Waypoint} {w : Waypoint}
    (h : w ∈ smooth_route wps) : w ∈ wps := by
  unfold smooth_route at h
  split at h
  · exact h
  · obtain ⟨⟨i, v⟩, hmem, he⟩ := List.mem_map.mp h
    have hv : (i, v) ∈ wps.enum := (List.mem_filter.mp hmem).1
    have : v ∈ wps := by
      rw [← List.enum_map_snd wps]
      exact List.mem_map_of_mem _ hv
    simpa [← he] using this

/-- Weather adjustment only rewrites `wind_factor`: every output waypoint
shares position, altitude and action with an input waypoint. -/
theorem mem_weather_adjust {windF : Waypoint → Waypoint → ℚ} {wps : List Waypoint}
    {w : Waypoint} (h : w ∈ apply_weather_adjustments windF wps) :
    ∃ v ∈ wps, w.lat = v.lat ∧ w.lng = v.lng ∧ w.altitude = v.altitude ∧ w.action = v.action := by
  unfold apply_weather_adjustments at h
  obtain ⟨⟨i, v⟩, hmem, he⟩ := List.mem_map.mp h
  have hv : v ∈ wps := by
    rw [← List.enum_map_snd wps]
    exact List.mem_map_of_mem _ hmem
  refine ⟨v, hv, ?_⟩
  rw [← he]
  dsimp only
  split
  · exact ⟨rfl, rfl, rfl, rfl⟩
  · cases wps[i-1]? with
    | none => exact ⟨rfl, rfl, rfl, rfl⟩
    | some prev => exact ⟨rfl, rfl, rfl, rfl⟩

/-- Terrain following is the identity when every waypoint already clears
the (sea-level) terrain by `min_terrain_clearance`. -/
theorem apply_terrain_id : ∀ (wps : List Waypoint),
    (∀ w ∈ wps, ¬ w.altitude < 30) → apply_terrain_following wps = wps := by
  intro wps
  induction wps with
  | nil => intro _; rfl
  | cons a l ih =>
    intro h
    have ha := h a (List.mem_cons_self _ _)
    have hl := ih (fun w hw => h w (List.mem_cons_of_mem _ hw))
    unfold apply_terrain_following at hl ⊢
    simp only [List.map_cons]
    rw [hl, if_neg (by simpa [get_terrain_elevation, min_terrain_clearance] using ha)]

/-! ## Claim C2: rule-based ETA scenario -/

/-- With the model untrained, the historical adjustment is the identity
whenever the route-hash cache has no entry of at least 3 samples, so
`predict_eta` returns the rule-based prediction unchanged. -/
theorem predict_eta_no_history (ml : ETAPrediction) (cache : RouteHashCache)
    (d a pw : ℚ) (b : ℤ) (w pr tr sp st : ℚ)
    (hcache : ∀ l, cacheLookup cache (get_route_hash d a (w / 50)) = some l → l.length < 3) :
    predict_eta false ml cache d a pw b w pr tr sp st =
      predict_rule_based d a pw b w pr tr sp st := by
  show apply_historical_adjustment cache
    (if false = true then ml else predict_rule_based d a pw b w pr tr sp st) d a w =
    predict_rule_based d a pw b w pr tr sp st
  rw [if_neg (by decide)]
  simp only [apply_historical_adjustment]
  cases hl : cacheLookup cache (get_route_hash d a (w / 50)) with
  | none => rfl
  | some l =>
    dsimp only
    have hlen := hcache l hl
    rw [if_neg (by omega)]

/-- C2: for distance 5 km, payload 3 kg, battery 80, wind 10 km/h, no
precipitation, traffic 0.3, drone max speed 60 km/h, with the ML model
untrained and no historical cache entry of ≥ 3 samples for the route
hash, `predict_eta` returns `eta_minutes` in [7.0, 9.5] (exactly 8.26),
`model_used = "rule_based"`, `confidence = 75`, and the ETA equals the
spec's formula `distance / (base_speed · penalties) · 60 · 1.2` with
`base_speed = drone_max_speed · 0.8`. CONFIRMED. -/
theorem eta_rule_based_scenario (ml : ETAPrediction) (cache : RouteHashCache)
    (hcache : ∀ l, cacheLookup cache (get_route_hash 5 100 (10 / 50)) = some l → l.length < 3) :
    7 ≤ (predict_eta false ml cache 5 100 3 80 10 0 0.3 60 0).eta_minutes ∧
    (predict_eta false ml cache 5 100 3 80 10 0 0.3 60 0).eta_minutes ≤ 9.5 ∧
    (predict_eta false ml cache 5 100 3 80 10 0 0.3 60 0).model_used = "rule_based" ∧
    (predict_eta false ml cache 5 100 3 80 10 0 0.3 60 0).confidence = 75 ∧
    (predict_eta false ml cache 5 100 3 80 10 0 0.3 60 0).eta_minutes =
      pyRound (5 / ((60 * 0.8) * (pymax 0.7 (1 - pymin 0.3 (3 / 10 * 0.1))) *
        (pymax 0.8 (1 - pymin 0.2 (100 / 1000 * 0.05))) * 1 *
        (1 - pymin 0.25 (10 / 50 * 0.15)) * (1 - pymin 0.3 ((0 : ℚ) * 0.2)) *
        (1 - pymin 0.15 (0.3 * 0.1))) * 60 * 1.2) 2 := by
  rw [predict_eta_no_history ml cache 5 100 3 80 10 0 0.3 60 0 hcache]
  refine ⟨?_, ?_, rfl, ?_, ?_⟩ <;> with_unfolding_all decide

/-- Witness for C2 at the empty cache. -/
theorem eta_rule_based_scenario_witness :
    7 ≤ (predict_eta false ⟨0, 0, 0, 0, 0, 0, 0, 0, 0, 0, 0, 0, 0, 0, "", 0⟩ []
        5 100 3 80 10 0 0.3 60 0).eta_minutes ∧
    (predict_eta false ⟨0, 0, 0, 0, 0, 0, 0, 0, 0, 0, 0, 0, 0, 0, "", 0⟩ []
        5 100 3 80 10 0 0.3 60 0).eta_minutes ≤ 9.5 ∧
    (predict_eta false ⟨0, 0, 0, 0, 0, 0, 0, 0, 0, 0, 0, 0, 0, 0, "", 0⟩ []
        5 100 3 80 10 0 0.3 60 0).model_used = "rule_based" ∧
    (predict_eta false ⟨0, 0, 0, 0, 0, 0, 0, 0, 0, 0, 0, 0, 0, 0, "", 0⟩ []
        5 100 3 80 10 0 0.3 60 0).confidence = 75 ∧
    (predict_eta false ⟨0, 0, 0, 0, 0, 0, 0, 0, 0, 0, 0, 0, 0, 0, "", 0⟩ []
        5 100 3 80 10 0 0.3 60 0).eta_minutes =
      pyRound (5 / ((60 * 0.8) * (pymax 0.7 (1 - pymin 0.3 (3 / 10 * 0.1))) *
        (pymax 0.8 (1 - pymin 0.2 (100 / 1000 * 0.05))) * 1 *
        (1 - pymin 0.25 (10 / 50 * 0.15)) * (1 - pymin 0.3 ((0 : ℚ) * 0.2)) *
        (1 - pymin 0.15 (0.3 * 0.1))) * 60 * 1.2) 2 :=
  eta_rule_based_scenario ⟨0, 0, 0, 0, 0, 0, 0, 0, 0, 0, 0, 0, 0, 0, "", 0⟩ []
    (fun l hl => by simp [cacheLookup] at hl)

/-! ## Claim C3: update_status on a pending order -/

/-- C3 counterexample: on a pending order, `update_status` to `delivered`
does NOT raise a ConflictError — there is no transition validation. It
succeeds, writes one history row, and sets `delivered_at` and
`actual_delivery_time`. -/
theorem update_status_pending_delivered_counterexample :
    update_status ⟨"pending", none, none, none, none, none⟩ "delivered" 1 none 5 =
      .ok ⟨"delivered", none, none, none, some 5, some 5⟩ [⟨"delivered", none, some 1⟩] := by
  with_unfolding_all decide

/-- C3 amended: for every order in status `pending`, `update_status` with
target `delivered` succeeds (only membership in the status choices is
checked), sets the status to `delivered`, sets `delivered_at` and
`actual_delivery_time` to now, leaves `assigned_at` and `picked_up_at`
unchanged, and appends exactly one history row with status `delivered`. -/
theorem update_status_pending_delivered (o : Order) (user : ℕ) (notes : Option String)
    (now : ℚ) (hpending : o.status = "pending") :
    update_status o "delivered" user notes now =
      .ok { o with
            status := "delivered"
            delivered_at := some now
            actual_delivery_time := some now } [⟨"delivered", notes, some user⟩] := by
  clear hpending
  simp [update_status, statusChoices]

/-- Witness for C3 amended. -/
theorem update_status_pending_delivered_witness :
    update_status ⟨"pending", some 3, some 1, some 2, none, none⟩ "delivered" 9 (some "ok") 7 =
      .ok ⟨"delivered", some 3, some 1, some 2, some 7, some 7⟩ [⟨"delivered", some "ok", some 9⟩] :=
  update_status_pending_delivered ⟨"pending", some 3, some 1, some 2, none, none⟩ 9 (some "ok") 7 rfl

/-! ## Claim C4: assign_drone run twice -/

/-- C4 counterexample: running `assign_drone_to_delivery` twice for the
same order and drone writes TWO `in_transit` history rows (the task has
no idempotence check), and the second run's order differs from the first
run's (it overwrites `assigned_at`). -/
theorem assign_drone_twice_counterexample :
    (((assign_drone_to_delivery (assign_drone_to_delivery
        ⟨⟨"pending", none, none, none, none, none⟩,
          ⟨7, "DRN-7", "idle", 90, true, none, 0, none⟩, []⟩ 0) 1).history.filter
        (fun r => decide (r.status = "in_transit"))).length = 2) ∧
    (assign_drone_to_delivery (assign_drone_to_delivery
        ⟨⟨"pending", none, none, none, none, none⟩,
          ⟨7, "DRN-7", "idle", 90, true, none, 0, none⟩, []⟩ 0) 1).order ≠
      (assign_drone_to_delivery
        ⟨⟨"pending", none, none, none, none, none⟩,
          ⟨7, "DRN-7", "idle", 90, true, none, 0, none⟩, []⟩ 0).order := by
  with_unfolding_all decide

/-- C4 amended: running the assignment task twice leaves the drone and the
order identical to the single run except that `assigned_at` is
overwritten with the second run's time (`picked_up_at` is preserved by
the `or` guard), and appends one `in_transit` history row per run — two
in total. -/
theorem assign_drone_twice_behavior (w : AssignWorld) (t1 t2 : ℚ) :
    (assign_drone_to_delivery (assign_drone_to_delivery w t1) t2).order =
      { (assign_drone_to_delivery w t1).order with assigned_at := some t2 } ∧
    (assign_drone_to_delivery (assign_drone_to_delivery w t1) t2).drone =
      (assign_drone_to_delivery w t1).drone ∧
    (assign_drone_to_delivery (assign_drone_to_delivery w t1) t2).history =
      (assign_drone_to_delivery w t1).history ++
        [⟨"in_transit", some ("Drone " ++ w.drone.serial_number ++ " dispatched"), none⟩] ∧
    ((assign_drone_to_delivery (assign_drone_to_delivery w t1) t2).history.filter
        (fun r => decide (r.status = "in_transit"))).length =
      (w.history.filter (fun r => decide (r.status = "in_transit"))).length + 2 := by
  obtain ⟨o, d, hist⟩ := w
  obtain ⟨os, odr, oa, op, ode, oat⟩ := o
  refine ⟨?_, rfl, ?_, ?_⟩
  · cases op <;> rfl
  · cases op <;> rfl
  · cases op <;> simp [assign_drone_to_delivery, List.filter_append]

/-! ## Claim C6: assign_drone validation -/

/-- C6 counterexample: a drone with status `maintenance` and battery 5
(failing the claimed `idle` and `battery ≥ 20` checks) but `is_active`
is accepted by the view and assigned by the task: the order ends with
that drone and the drone is set `delivering`. -/
theorem assign_drone_accepts_invalid_drone_counterexample :
    (assign_drone_flow true (some 7) ⟨"pending", none, none, none, none, none⟩
        [⟨7, "DRN-7", "maintenance", 5, true, none, 0, none⟩] [] 3).1 = .accepted ∧
    ((assign_drone_flow true (some 7) ⟨"pending", none, none, none, none, none⟩
        [⟨7, "DRN-7", "maintenance", 5, true, none, 0, none⟩] [] 3).2.map
      (fun w => (w.order.droneId, w.order.status, w.drone.status))) =
      some (some 7, "in_transit", "delivering") := by
  with_unfolding_all decide

/-- C6 amended: the only validation performed is the lookup of an
`is_active` drone with the requested id: if none is found the request is
rejected with 404 and nothing is assigned; otherwise the found drone is
assigned unconditionally, with no check of its status or battery level. -/
theorem assign_drone_validates_only_is_active (o : Order) (drones : List Drone)
    (hist : List HistoryRow) (now : ℚ) (did : ℕ) :
    match drones.find? (fun d => decide (d.id = did) && d.is_active) with
    | none => assign_drone_flow true (some did) o drones hist now =
        (.notFound "Drone not found or inactive", none)
    | some d => assign_drone_flow true (some did) o drones hist now =
        (.accepted, some (assign_drone_to_delivery ⟨o, d, hist⟩ now)) := by
  cases hf : drones.find? (fun d => decide (d.id = did) && d.is_active) with
  | none => simp [assign_drone_flow, assign_drone_view, hf]
  | some d => simp [assign_drone_flow, assign_drone_view, hf]

/-! ## Claim C7: telemetry ingest and the missing IN_FLIGHT status -/

/-- C7: evaluating the ingest task at a well-formed payload with
`is_in_flight = true` for a known drone: the telemetry row is inserted,
but the drone update raises `AttributeError` (`Drone.Status` has no
member `IN_FLIGHT`) before `drone.save()`, so the drone row — including
`last_heartbeat` and `status` — is left completely unchanged, contrary
to the claim that the update completes and sets an in-flight status. -/
theorem process_telemetry_in_flight_attribute_error :
    process_live_telemetry ⟨42, "DRN-42", "idle", 90, true, some (77, 12), 50, some 100⟩
      ⟨some 13, some 78, some 120, some 40, some 90, some 85, some true, some 95⟩ 200 =
      ⟨some ⟨(78, 13), 120, 90, 40, 85, true⟩,
        ⟨42, "DRN-42", "idle", 90, true, some (77, 12), 50, some 100⟩,
        false, some "AttributeError: type object Status has no attribute IN_FLIGHT"⟩ := by
  with_unfolding_all decide

/-! ## Claim C8: battery level invariant -/

/-- C8 counterexample: for a drone with a stored `current_position`
(supplying the non-null position for the telemetry insert), a payload
with `battery_level = 150` and `is_in_flight = false` is persisted
verbatim — the drone ends with battery 150 > 100 and no error,
violating the claimed invariant. -/
theorem telemetry_battery_overflow_counterexample :
    (process_live_telemetry ⟨42, "DRN-42", "idle", 100, true, some (77, 12), 0, none⟩
        { battery_level := some 150, is_in_flight := some false } 9).drone.battery_level = 150 ∧
    (process_live_telemetry ⟨42, "DRN-42", "idle", 100, true, some (77, 12), 0, none⟩
        { battery_level := some 150, is_in_flight := some false } 9).errored = none ∧
    ¬ ((process_live_telemetry ⟨42, "DRN-42", "idle", 100, true, some (77, 12), 0, none⟩
        { battery_level := some 150, is_in_flight := some false } 9).drone.battery_level ≤ 100) := by
  with_unfolding_all decide

/-- C8 amended: the ingest task copies the payload battery verbatim with
no clamping, so the invariant `0 ≤ battery_level ≤ 100` is preserved by
telemetry ingest exactly when the incoming payload battery (if present)
is itself within [0, 100]; on the two error paths (null-position
`IntegrityError`, in-flight `AttributeError`) the drone is untouched and
the invariant carries over from the precondition. -/
theorem battery_invariant_bounded_payload (d : Drone) (p : TelemetryPayload) (now : ℚ)
    (hd : 0 ≤ d.battery_level ∧ d.battery_level ≤ 100)
    (hp : ∀ b, p.battery_level = some b → 0 ≤ b ∧ b ≤ 100) :
    0 ≤ (process_live_telemetry d p now).drone.battery_level ∧
      (process_live_telemetry d p now).drone.battery_level ≤ 100 := by
  simp only [process_live_telemetry]
  cases hpos : posFromPayload p.latitude p.longitude d.current_position with
  | none => exact hd
  | some pos =>
    dsimp only
    split
    · exact hd
    · dsimp only
      cases hb : p.battery_level with
      | none => simpa using hd
      | some b => simpa using hp b hb

/-- Witness for C8 amended. -/
theorem battery_invariant_bounded_payload_witness :
    0 ≤ (process_live_telemetry ⟨1, "D", "idle", 50, true, some (77, 12), 0, none⟩
        { battery_level := some 70, is_in_flight := some false } 0).drone.battery_level ∧
      (process_live_telemetry ⟨1, "D", "idle", 50, true, some (77, 12), 0, none⟩
        { battery_level := some 70, is_in_flight := some false } 0).drone.battery_level ≤ 100 :=
  battery_invariant_bounded_payload ⟨1, "D", "idle", 50, true, some (77, 12), 0, none⟩
    { battery_level := some 70, is_in_flight := some false } 0 (by decide)
    (fun b hb => by cases hb; decide)

/-! ## Claim C9: static zones lookup -/

/-- C9: for every bounding box (including none), `load_static_zones`
raises `NameError` — the module imports `sin, radians, degrees, asin,
atan2, pi` from `math` but line 58 of `_circle_to_polygon` also uses
`cos`, which is never imported; the first catalog entry already fails.
The claimed behaviour (returning the intersecting catalog zones without
error) is never reached. -/
theorem load_static_zones_raises_name_error (bbox : Option (ℚ × ℚ × ℚ × ℚ)) :
    load_static_zones bbox = .error "NameError: name cos is not defined" := rfl

/-! ## Claim C10: route cache key -/

/-- C10: the cache key is built from exactly
`(start.y, start.x, end.y, end.x, altitude, method, avoids_no_fly, avoids_weather)`;
when caching is enabled and the store holds a result under that key, a
call returns the stored tuple unchanged regardless of `priority`,
`drone_max_speed` and every other non-key parameter. CONFIRMED. -/
theorem optimize_route_cache_ignores_priority_and_speed {G : Type} (ops : GeomOps G)
    (dist3q : Node → Node → ℚ) (hav : ℚ → ℚ → ℚ → ℚ → ℚ) (calcDist : P2 → P2 → ℚ)
    (windF : Waypoint → Waypoint → ℚ) (zones : List (NoFlyZoneRec G))
    (cacheStore : RouteCacheKey → Option OptimizeResult)
    (start endP : P2) (altitude : ℚ) (maxAlt : Option ℚ)
    (avoids_no_fly avoids_weather avoids_terrain : Bool)
    (drone_max_speed : ℚ) (method : String) (hasWeatherData : Bool) (priority : String)
    (r : OptimizeResult)
    (hhit : cacheStore (get_cache_key start endP altitude method avoids_no_fly avoids_weather)
      = some r) :
    optimize_route ops dist3q hav calcDist windF zones true cacheStore start endP altitude
      maxAlt avoids_no_fly avoids_weather avoids_terrain drone_max_speed method
      hasWeatherData priority = .ok r := by
  simp [optimize_route, hhit]

/-- Witness for C10: a concrete hit under the eight-value key is returned
unchanged by a call whose priority and drone speed differ from anything
stored. -/
theorem optimize_route_cache_witness :
    optimize_route (G := Rect) rectOps (fun _ _ => 0) (fun _ _ _ _ => 0) (fun _ _ => 0)
      (fun _ _ => 1) [] true
      (fun k => if k = ⟨12, 77, 13, 78, 100, "astar", true, true⟩
        then some ⟨[], ⟨0, 0, 0, 0, 0, 0, 0, 0, 0, 0, 0, "astar", 0⟩, [], false⟩ else none)
      ⟨77, 12⟩ ⟨78, 13⟩ 100 none true true true 45 "astar" false "speed" =
      .ok ⟨[], ⟨0, 0, 0, 0, 0, 0, 0, 0, 0, 0, 0, "astar", 0⟩, [], false⟩ :=
  optimize_route_cache_ignores_priority_and_speed rectOps (fun _ _ => 0) (fun _ _ _ _ => 0)
    (fun _ _ => 0) (fun _ _ => 1) []
    (fun k => if k = ⟨12, 77, 13, 78, 100, "astar", true, true⟩
      then some ⟨[], ⟨0, 0, 0, 0, 0, 0, 0, 0, 0, 0, 0, "astar", 0⟩, [], false⟩ else none)
    ⟨77, 12⟩ ⟨78, 13⟩ 100 none true true true 45 "astar" false "speed"
    ⟨[], ⟨0, 0, 0, 0, 0, 0, 0, 0, 0, 0, 0, "astar", 0⟩, [], false⟩
    (by with_unfolding_all decide)

/-! ## Claim C5: edge costs versus the 3D distance -/

/-- The haversine distance from a point to itself is zero. -/
theorem haversine_self (lat lng : ℝ) : haversine lat lng lat lng = 0 := by
  simp [haversine, radiansR, Real.arcsin_zero]

/-- The 3D distance of the purely vertical step from 100 m to 120 m is
0.02 km. -/
theorem dist3_vertical_example :
    dist3 ((0 : ℚ), (0 : ℚ), (100 : ℚ)) ((0 : ℚ), (0 : ℚ), (120 : ℚ)) = 1 / 50 := by
  unfold dist3
  dsimp only
  rw [show ((0 : ℚ) : ℝ) = (0 : ℝ) by norm_num, haversine_self]
  have habs : |(((120 : ℚ) : ℝ)) - (((100 : ℚ) : ℝ))| = 20 := by norm_num
  rw [habs]
  have h : (0 : ℝ) ^ 2 + ((20 : ℝ) / 1000) ^ 2 = (1 / 50) ^ 2 := by norm_num
  rw [h, Real.sqrt_sq (by norm_num : (0 : ℝ) ≤ 1 / 50)]

/-- C5 counterexample: for the safety priority, the ascending vertical
edge from (0, 0, 100) to its neighbour (0, 0, 120) has cost
`distance − 0.1 = −0.08`, strictly below the 3D distance 0.02 — so edge
costs are NOT always ≥ distance and the stated admissibility argument
fails for the safety priority. -/
theorem safety_ascending_edge_cost_below_distance :
    ((0 : ℚ), (0 : ℚ), (120 : ℚ)) ∈
      get_neighbors ((0 : ℚ), (0 : ℚ), (100 : ℚ)) ((0 : ℚ), (0 : ℚ), (100 : ℚ)) "safety" ∧
    edge_cost ((0 : ℚ), (0 : ℚ), (100 : ℚ)) ((0 : ℚ), (0 : ℚ), (120 : ℚ)) "safety" <
      dist3 ((0 : ℚ), (0 : ℚ), (100 : ℚ)) ((0 : ℚ), (0 : ℚ), (120 : ℚ)) := by
  constructor
  · with_unfolding_all decide
  · simp only [edge_cost]
    split_ifs with h1 h2 h3
    · exact absurd h1 (by decide)
    · exact absurd h2 (by decide)
    · rw [dist3_vertical_example]; norm_num
    · exact absurd (by norm_num : (((100 : ℚ) : ℝ)) < (((120 : ℚ) : ℝ))) h3

/-- C5 amended: the edge cost is ≥ the 3D distance for the speed, energy
and balanced priorities, and for safety edges that do not ascend (where
the 0.1 penalty is added); for safety ascending edges the code applies a
−0.1 bonus, so the bound fails there (see the counterexample). -/
theorem edge_cost_ge_distance (n1 n2 : Node) (priority : String)
    (h : priority = "speed" ∨ priority = "energy" ∨ priority = "balanced" ∨
      (priority = "safety" ∧ n2.2.2 ≤ n1.2.2)) :
    dist3 n1 n2 ≤ edge_cost n1 n2 priority := by
  have h0 : (0 : ℝ) ≤ |((n2.2.2 : ℝ)) - ((n1.2.2 : ℝ))| := abs_nonneg _
  rcases h with rfl | rfl | rfl | ⟨rfl, hle⟩
  · simp only [edge_cost]
    split_ifs with h1 <;> first | exact le_rfl | exact absurd rfl h1
  · simp only [edge_cost]
    split_ifs with h1 h2 <;> first
      | exact absurd h1 (by decide)
      | linarith
      | exact absurd rfl h2
  · simp only [edge_cost]
    split_ifs with h1 h2 h3 h4 <;> first
      | exact absurd h1 (by decide)
      | exact absurd h2 (by decide)
      | exact absurd h3 (by decide)
      | linarith
  · simp only [edge_cost]
    split_ifs with h1 h2 h3
    · exact absurd h1 (by decide)
    · exact absurd h2 (by decide)
    · have hle' : ((n2.2.2 : ℝ)) ≤ ((n1.2.2 : ℝ)) := by exact_mod_cast hle
      exact absurd h3 (not_lt.mpr hle')
    · linarith

/-- Witness for C5 amended at a concrete energy-priority edge. -/
theorem edge_cost_ge_distance_witness :
    dist3 ((0 : ℚ), (0 : ℚ), (100 : ℚ)) ((0 : ℚ), (0 : ℚ), (120 : ℚ)) ≤
      edge_cost ((0 : ℚ), (0 : ℚ), (100 : ℚ)) ((0 : ℚ), (0 : ℚ), (120 : ℚ)) "energy" :=
  edge_cost_ge_distance ((0 : ℚ), (0 : ℚ), (100 : ℚ)) ((0 : ℚ), (0 : ℚ), (120 : ℚ)) "energy"
    (Or.inr (Or.inl rfl))

/-! ## Claim C1: A* routing with no-fly avoidance -/

/-- C1: every route computation with `avoids_no_fly = true` and the
`astar` method raises `FieldDoesNotExist` out of `_get_obstacles`
instead of returning a path: the queryset's
`.only('id', 'boundary', 'name', 'altitude_restriction')` names a field
`NoFlyZone` does not have, the `try` around it catches only
`ImportError`, and neither `_astar_route` nor `optimize_route` has a
handler — whatever the zones, endpoints, altitude and remaining flags.
No `avoids_no_fly = true` request is ever answered via A* search at all,
so the claimed zone-avoidance of A*-success paths is never exercised. -/
theorem astar_avoids_no_fly_raises_field_does_not_exist {G : Type}
    (ops : GeomOps G) (dist3q : Node → Node → ℚ) (hav : ℚ → ℚ → ℚ → ℚ → ℚ)
    (calcDist : P2 → P2 → ℚ) (windF : Waypoint → Waypoint → ℚ)
    (zones : List (NoFlyZoneRec G)) (start endP : P2) (altitude : ℚ)
    (maxAlt : Option ℚ) (avoids_weather avoids_terrain : Bool)
    (drone_max_speed : ℚ) (hasWeatherData : Bool) (priority : String) :
    compute_route ops dist3q hav calcDist windF zones start endP altitude maxAlt
      true avoids_weather avoids_terrain drone_max_speed "astar" hasWeatherData
      priority =
      .error "FieldDoesNotExist: NoFlyZone has no field named altitude_restriction" :=
  rfl

end ADDMS
